import Mathlib

/-!
A shallow embedding of `dl-reddit-top.py` (a single-file batch job that
fetches top posts from a set of subreddit feeds, classifies them as images,
downloads, deduplicates by file name and by content hash, and writes the
unique images to disk), together with theorems settling the specification
claims against it.

External effects (the clock, `uuid.uuid4`, the network, `hashlib.sha1`,
the filesystem) are modelled as explicit oracle inputs; an uncaught Python
exception is modelled as an `Except.error` outcome that aborts the
enclosing loop, exactly as propagation out of the module-level loops would.
Character classes of Python's `re` (`\w`, `\s`) are modelled on their ASCII
fragment.
-/

namespace DlRedditTop

/-! ### Python string/path helpers used by the script -/

/-- The final path component of `l` (everything after the last `'/'`),
as used by `posixpath.splitext`. -/
def afterLastSep (l : List Char) : List Char :=
  l.foldl (fun acc c => if c = '/' then [] else acc ++ [c]) []

/-- Index of the last `'.'` in `l`, if any. -/
def lastDotIdx : List Char → Option Nat
  | [] => none
  | c :: rest =>
    match lastDotIdx rest with
    | some i => some (i + 1)
    | none => if c = '.' then some 0 else none

/-- The extension component of a basename, following `posixpath.splitext`:
the suffix starting at the last dot, provided some non-dot character
precedes that dot (so `.bashrc`-style names have no extension). -/
def extOfBase (b : List Char) : List Char :=
  match lastDotIdx b with
  | none => []
  | some d => if (b.take d).any (fun c => c ≠ '.') then b.drop d else []

/-- `os.path.splitext(p)[1]`: the extension of `p` (POSIX rules). -/
def splitext_ext (p : String) : String :=
  ⟨extOfBase (afterLastSep p.data)⟩

/-- Whether a list of characters starts with `'/'`. -/
def headIsSlash : List Char → Bool
  | [] => false
  | c :: _ => c = '/'

/-- Whether a path string is absolute (starts with `'/'`). -/
def startsWithSlash (s : String) : Bool := headIsSlash s.data

/-- Whether a path string ends with `'/'`. -/
def endsWithSlash (s : String) : Bool :=
  match s.data.getLast? with
  | some c => c = '/'
  | none => false

/-- `os.path.join(a, b)` for two components (POSIX rules): an absolute `b`
discards `a`; otherwise a separator is inserted unless `a` is empty or
already ends in one. -/
def pathJoin (a b : String) : String :=
  if startsWithSlash b then b
  else if a = "" || endsWithSlash a then a ++ b
  else a ++ "/" ++ b

/-! ### Classifier: `is_url_image` -/

/-- A fragment of the default `mimetypes` extension table relevant here;
keys are lower-case extensions, values the guessed MIME type. -/
def typesMapFragment : List (String × String) :=
  [(".jpg", "image/jpeg"), (".jpeg", "image/jpeg"), (".png", "image/png"),
   (".gif", "image/gif"), (".bmp", "image/bmp"), (".svg", "image/svg+xml"),
   (".html", "text/html"), (".htm", "text/html"), (".txt", "text/plain"),
   (".pdf", "application/pdf")]

/-- ASCII lower-casing of a string (`str.lower` on the extensions used
here). -/
def strToLower (s : String) : String := ⟨s.data.map Char.toLower⟩

/-- `str.startswith`: whether `s` begins with `p`. -/
def strStartsWith (s p : String) : Bool := s.data.take p.data.length = p.data

/-- `mimetypes.guess_type(url)[0]`: look the extension of the URL's path up
in the type table (case-insensitively); `none` models Python `None`. -/
def guess_type (url : String) : Option String :=
  (typesMapFragment.find? (fun kv => kv.1 = strToLower (splitext_ext url))).map (·.2)

/-- `is_url_image(url)` = `mimetype and mimetype.startswith("image")`.
Python's `and` returns the first operand when it is falsy, so the result is
`None` (here `none`) when no type was guessed, and a `bool` (here
`some b`) otherwise. -/
def is_url_image (url : String) : Option Bool :=
  match guess_type url with
  | none => none
  | some m => some (strStartsWith m "image")

/-- Python truthiness of an `is_url_image` result (`if is_url_image(url):`). -/
def truthy : Option Bool → Bool
  | none => false
  | some b => b

/-! ### Filename deriver: `make_filename` -/

/-- ASCII fragment of Python's `\w` class (word characters). -/
def isWordChar (c : Char) : Bool := c.isAlpha || c.isDigit || c = '_'

/-- ASCII fragment of Python's `\s` class (whitespace). -/
def isSpaceChar (c : Char) : Bool :=
  c = ' ' || c = '\t' || c = '\n' || c = '\x0b' || c = '\x0c' || c = '\r'

/-- Helper for `collapseWS`: the flag records whether the previous
character was whitespace (so a run contributes a single hyphen). -/
def collapseWSAux : Bool → List Char → List Char
  | _, [] => []
  | prevSpace, c :: rest =>
    if isSpaceChar c then
      if prevSpace then collapseWSAux true rest
      else '-' :: collapseWSAux true rest
    else c :: collapseWSAux false rest

/-- `re.sub(r"\s+", "-", ·)`: replace each maximal run of whitespace by a
single hyphen. -/
def collapseWS (l : List Char) : List Char := collapseWSAux false l

/-- The title sanitization of `make_filename`: drop characters that are
neither word characters nor whitespace, collapse whitespace runs to `-`,
then truncate to 50 characters. -/
def sanitizeTitle (name : String) : String :=
  let s1 := name.data.filter (fun c => isWordChar c || isSpaceChar c)
  let s2 := collapseWS s1
  let s3 := if s2.length > 50 then s2.take 50 else s2
  ⟨s3⟩

/-- The file name composed by `make_filename` before it is joined to the
output directory: `date + "_" + subreddit + "_" + name + ext`, where
`name` is the sanitized title, or `token` (modelling `uuid.uuid4().hex`, a
32-character hexadecimal string) when sanitization yielded the empty
string. `date` models `datetime.now` formatted as `ddmmyy`. -/
def make_filename_base (date token url name subreddit : String) : String :=
  let name1 := sanitizeTitle name
  let name2 := if name1 = "" then token else name1
  let ext := splitext_ext url
  date ++ "_" ++ subreddit ++ "_" ++ name2 ++ ext

/-- `make_filename(url, name, subreddit, out_dir)`, with the clock (`date`)
and the randomness (`token`) passed as oracle inputs. -/
def make_filename (date token url name subreddit out_dir : String) : String :=
  pathJoin out_dir (make_filename_base date token url name subreddit)

/-! ### Data model: posts and the post collection

`POSTS` and the per-feed `subreddit_posts` are Python dicts keyed by the
post id; they are modelled as insertion-ordered association lists with the
dict assignment semantics (`d[k] = v` replaces the value in place when `k`
is present, otherwise appends). -/

/-- The metadata dict stored per post id:
`{url: ..., title: ..., subreddit: ..., hash: ...}` (the hash starts as
`""` and is set during the persist phase). -/
structure Post where
  url : String
  title : String
  subreddit : String
  hash : String
deriving DecidableEq, Repr

/-- A Python dict from post id to metadata, as an insertion-ordered
association list. -/
abbrev PostDict := List (String × Post)

/-- `d[k] = v`: replace the value at `k` in place if present, else append. -/
def setKey : PostDict → String → Post → PostDict
  | [], k, v => [(k, v)]
  | (k', v') :: rest, k, v =>
    if k' = k then (k', v) :: rest else (k', v') :: setKey rest k v

/-- `d.get(k)`: the value stored at `k`, if any. -/
def dictLookup : PostDict → String → Option Post
  | [], _ => none
  | (k', v') :: rest, k => if k' = k then some v' else dictLookup rest k

/-- `d.update(other)`: assign every entry of `other` into `d`, in order. -/
def dictUpdate (d other : PostDict) : PostDict :=
  other.foldl (fun acc kv => setKey acc kv.1 kv.2) d

/-! ### Uncaught exceptions

The script's failure paths contain two type slips that raise `TypeError`
at run time: string concatenation with a non-`str` (`"..." + e.code` where
`e.code` is an `int`, and `"..." + e.reason` where the reason is an
exception object), and `hashlib.sha1(False)` when `download_image`'s
`False` return value is fed to `calculate_hash`. An uncaught exception is
modelled as an `Except.error` that aborts the enclosing loop. -/

/-- An uncaught Python exception escaping a loop. -/
inductive PyCrash
  | typeError
deriving DecidableEq, Repr

/-! ### Feed fetcher: `get_top_posts` -/

/-- One entry of `feed["data"]["children"]`, with the three fields the
script extracts. -/
structure Entry where
  id : String
  url : String
  title : String
deriving DecidableEq, Repr

/-- What the network returns for the feed request (oracle input):
either `urlopen` raises (`HTTPError` with an `int` code, or `URLError`
with a `str` reason — a non-`str` reason also crashes the handler and is
subsumed by `httpError` for this model), or it yields a parsed JSON body
with or without the `"data"` envelope. -/
inductive NetResult
  | httpError (code : Int)
  | urlErrorStr (reason : String)
  | success (hasData : Bool) (children : List Entry)
deriving DecidableEq, Repr

/-- The result of a `get_top_posts` call: an uncaught exception, the
`False` return value, or the per-feed post dict. -/
inductive FetchOutcome
  | raised (c : PyCrash)
  | returnedFalse
  | posts (d : PostDict)
deriving DecidableEq, Repr

/-- The scan of `feed["data"]["children"]`: entries are consumed in order;
an image post is assigned into the per-feed dict, and the first non-image
post ends the loop (`break`). -/
def scanChildren (subreddit : String) (acc : PostDict) : List Entry → PostDict
  | [] => acc
  | e :: rest =>
    if truthy (is_url_image e.url) then
      scanChildren subreddit (setKey acc e.id ⟨e.url, e.title, subreddit, ""⟩) rest
    else acc

/-- `get_top_posts(subreddit, timeframe)` as a function of the network's
answer (the timeframe only affects the request URL and is omitted). The
`HTTPError` handler formats its log message as `"..." + e.code` with an
`int` code, which itself raises `TypeError`; the `URLError` handler with a
`str` reason logs and returns `False`; a parsed body without a `"data"`
section logs and returns `False`. -/
def get_top_posts (subreddit : String) (resp : NetResult) : FetchOutcome :=
  match resp with
  | .httpError _ => .raised .typeError
  | .urlErrorStr _ => .returnedFalse
  | .success hasData children =>
    if hasData then .posts (scanChildren subreddit [] children)
    else .returnedFalse

/-! ### Collect phase -/

/-- The module-level collect loop: for each configured subreddit, call
`get_top_posts`; a `False` result is logged and skipped, a dict result is
merged into `POSTS` via `dict.update`, and an uncaught exception aborts
the whole loop (and with it the run). -/
def collectLoop (posts : PostDict) : List (String × NetResult) → Except PyCrash PostDict
  | [] => .ok posts
  | (subreddit, resp) :: feeds =>
    match get_top_posts subreddit resp with
    | .raised c => .error c
    | .returnedFalse => collectLoop posts feeds
    | .posts d => collectLoop (dictUpdate posts d) feeds

/-! ### Downloader, hasher and duplicate checks -/

/-- What the network returns for an image GET (oracle input). `httpError`
covers both the `HTTPError` handler (whose `"..." + e.code` log line
raises `TypeError`) and a `URLError` whose reason is not a `str`. -/
inductive DownloadResult
  | httpError (code : Int)
  | urlErrorStr (reason : String)
  | bytes (data : List Nat)
deriving DecidableEq, Repr

/-- `download_image(url)`: `some data` on success, `none` for the Python
`False` return (the `URLError`-with-`str`-reason path), and an uncaught
`TypeError` for the `HTTPError` path whose log formatting is ill-typed. -/
def download_image : DownloadResult → Except PyCrash (Option (List Nat))
  | .httpError _ => .error .typeError
  | .urlErrorStr _ => .ok none
  | .bytes data => .ok (some data)

/-- `calculate_hash(image)` with `hashlib.sha1` as an oracle. When the
argument is the `False` returned by a failed download (`none` here),
`hashlib.sha1(False)` raises `TypeError`. -/
def calculate_hash (sha1 : List Nat → String) : Option (List Nat) → Except PyCrash String
  | none => .error .typeError
  | some data => .ok (sha1 data)

/-- `is_duplicate_hash(image_hash)`: scan all of `POSTS` for a metadata
entry with the same hash. -/
def is_duplicate_hash (posts : PostDict) (imageHash : String) : Bool :=
  posts.any (fun kv => kv.2.hash == imageHash)

/-- The title logged by `is_duplicate_hash` when it finds a match (the
matching post's title, from the first matching entry). -/
def duplicateHashTitle (posts : PostDict) (imageHash : String) : String :=
  ((posts.find? (fun kv => kv.2.hash == imageHash)).map (fun kv => kv.2.title)).getD ""

/-- `is_duplicate_file(filename)`: `os.path.isfile` against the modelled
set of files on disk. -/
def is_duplicate_file (disk : List String) (filename : String) : Bool :=
  disk.any (fun f => f == filename)

/-! ### Persist phase -/

/-- The warn/error log entries the persist phase can emit (info/debug
noise is not modelled). -/
inductive LogEvent
  | dupFile (filename : String)
  | dupContent (title : String)
  | downloadErr (reason : String)
  | writeErr (filename : String)
deriving DecidableEq, Repr

/-- The oracles of one run: the clock (`date`, fixed for the run), the
`uuid.uuid4().hex` stream (keyed by the id of the post being processed —
each post is processed at most once), the configured output directory, the
network (`download`), the filesystem's willingness to write a path
(`write_ok`; `false` models an `IOError` from `open`, so no file appears),
and `hashlib.sha1` (`sha1`). -/
structure Env where
  date : String
  tok : String → String
  out_dir : String
  download : String → DownloadResult
  write_ok : String → Bool
  sha1 : List Nat → String

/-- The mutable state of the persist loop: the post collection (hash
fields are assigned in place), the files present on disk, the URLs
downloaded so far, the warn/error log, and the files written this run. -/
structure PState where
  posts : PostDict
  disk : List String
  dls : List String
  log : List LogEvent
  writes : List String
deriving DecidableEq, Repr

/-- One iteration of the persist loop, for the post stored at key `k`:
derive the filename; skip if the file exists (before any download);
download (a failure here raises: `download_image` either raises in its
handler or returns `False`, which `calculate_hash` then rejects with
`TypeError`); hash; skip if the hash duplicates an earlier post's; else
record the hash on the post and write the file, discarding `save_image`'s
result. -/
def persistStep (env : Env) (st : PState) (k : String) : Except PyCrash PState :=
  match dictLookup st.posts k with
  | none => .ok st
  | some md =>
    let filename := make_filename env.date (env.tok k) md.url md.title md.subreddit env.out_dir
    if is_duplicate_file st.disk filename then
      .ok { st with log := st.log ++ [.dupFile filename] }
    else
      let st1 := { st with dls := st.dls ++ [md.url] }
      match download_image (env.download md.url) with
      | .error c => .error c
      | .ok img =>
        match calculate_hash env.sha1 img with
        | .error c => .error c
        | .ok imageHash =>
          if is_duplicate_hash st1.posts imageHash then
            .ok { st1 with log := st1.log ++ [.dupContent (duplicateHashTitle st1.posts imageHash)] }
          else
            let posts' := setKey st1.posts k { md with hash := imageHash }
            if env.write_ok filename then
              .ok { posts := posts', disk := st1.disk ++ [filename], dls := st1.dls,
                    log := st1.log, writes := st1.writes ++ [filename] }
            else
              .ok { posts := posts', disk := st1.disk, dls := st1.dls,
                    log := st1.log ++ [.writeErr filename], writes := st1.writes }

/-- The persist loop over a list of post ids; an uncaught exception aborts
the remaining iterations. -/
def persistLoop (env : Env) (st : PState) : List String → Except PyCrash PState
  | [] => .ok st
  | k :: ks =>
    match persistStep env st k with
    | .error c => .error c
    | .ok st' => persistLoop env st' ks

/-- The whole persist phase: iterate the collection in insertion order,
starting from the given initial disk contents, with empty download and
log histories. -/
def persistPhase (env : Env) (disk0 : List String) (posts : PostDict) :
    Except PyCrash PState :=
  persistLoop env ⟨posts, disk0, [], [], []⟩ (posts.map Prod.fst)

/-- A deterministic stand-in for `hashlib.sha1(...).hexdigest()` used to
instantiate concrete runs: distinct on the byte strings appearing in them,
and never empty (a real SHA-1 hex digest has 40 characters). -/
def sha1Stub (data : List Nat) : String :=
  "sha1-" ++ String.intercalate "-" (data.map Nat.repr)

/-! ### Helper lemmas on the dict model -/

theorem dictLookup_setKey_self (d : PostDict) (k : String) (v : Post) :
    dictLookup (setKey d k v) k = some v := by
  induction d with
  | nil => simp [setKey, dictLookup]
  | cons kv rest ih =>
    obtain ⟨k', v'⟩ := kv
    by_cases h : k' = k
    · simp [setKey, dictLookup, h]
    · simp [setKey, dictLookup, h, ih]

theorem dictLookup_setKey_ne (d : PostDict) (k a : String) (v : Post) (h : k ≠ a) :
    dictLookup (setKey d k v) a = dictLookup d a := by
  induction d with
  | nil => simp [setKey, dictLookup, h]
  | cons kv rest ih =>
    obtain ⟨k', v'⟩ := kv
    by_cases h' : k' = k
    · subst h'
      simp [setKey, dictLookup, h]
    · simp [setKey, dictLookup, h', ih]

theorem mem_keys_setKey (d : PostDict) (k a : String) (v : Post) :
    a ∈ (setKey d k v).map Prod.fst ↔ a ∈ d.map Prod.fst ∨ a = k := by
  induction d with
  | nil => simp [setKey]
  | cons kv rest ih =>
    obtain ⟨k', v'⟩ := kv
    by_cases h : k' = k
    · subst h
      simp [setKey]
      tauto
    · simp [setKey, h, ih]
      tauto

theorem keys_nodup_setKey (d : PostDict) (k : String) (v : Post)
    (h : (d.map Prod.fst).Nodup) : ((setKey d k v).map Prod.fst).Nodup := by
  induction d with
  | nil => simp [setKey]
  | cons kv rest ih =>
    obtain ⟨k', v'⟩ := kv
    simp only [List.map_cons, List.nodup_cons] at h
    by_cases hk : k' = k
    · subst hk
      simpa [setKey, List.nodup_cons] using h
    · rw [show setKey ((k', v') :: rest) k v = (k', v') :: setKey rest k v by
            simp [setKey, hk]]
      simp only [List.map_cons, List.nodup_cons]
      refine ⟨?_, ih h.2⟩
      intro h1
      rcases (mem_keys_setKey rest k k' v).mp h1 with h2 | h2
      · exact h.1 h2
      · exact hk h2

theorem dictLookup_eq_none_of_not_mem (d : PostDict) (k : String)
    (h : k ∉ d.map Prod.fst) : dictLookup d k = none := by
  induction d with
  | nil => rfl
  | cons kv rest ih =>
    obtain ⟨k', v'⟩ := kv
    simp only [List.map_cons, List.mem_cons] at h
    push_neg at h
    have hne : k' ≠ k := fun hc => h.1 hc.symm
    simp [dictLookup, hne, ih h.2]

theorem dictUpdate_lookup_not_mem (d n : PostDict) (k : String)
    (h : k ∉ n.map Prod.fst) : dictLookup (dictUpdate d n) k = dictLookup d k := by
  induction n generalizing d with
  | nil => rfl
  | cons kv rest ih =>
    obtain ⟨k', v'⟩ := kv
    simp only [List.map_cons, List.mem_cons] at h
    push_neg at h
    rw [show dictUpdate d ((k', v') :: rest) = dictUpdate (setKey d k' v') rest from rfl,
        ih _ h.2, dictLookup_setKey_ne _ _ _ _ (fun hc => h.1 hc.symm)]

theorem keys_nodup_dictUpdate (d n : PostDict) (h : (d.map Prod.fst).Nodup) :
    ((dictUpdate d n).map Prod.fst).Nodup := by
  induction n generalizing d with
  | nil => exact h
  | cons kv rest ih =>
    exact ih _ (keys_nodup_setKey _ _ _ h)

end DlRedditTop

namespace DlRedditTop

/-! ### Claim C1 -/

/-- C1 — the claim says a failed download in the persist phase is a skip
plus a log entry, with no exception escaping the loop. In the code,
`download_image` returns `False` on a `URLError` (and its `HTTPError`
handler already raises `TypeError` while formatting `"..." + e.code`), and
the loop passes that `False` straight into `calculate_hash`, where
`hashlib.sha1(False)` raises `TypeError`; the exception propagates and the
remaining posts (here `p2`) are never processed. This theorem evaluates
the model at such a failing input. -/
theorem claim1_download_failure_crashes_persist_loop :
    download_image (.urlErrorStr "timed out") = .ok none
    ∧ calculate_hash sha1Stub none = .error .typeError
    ∧ persistPhase
        ⟨"111025", fun _ => "cafe0123cafe0123cafe0123cafe0123", "/out",
         fun _ => .urlErrorStr "timed out", fun _ => true, sha1Stub⟩ []
        [("p1", ⟨"http://i/a.jpg", "Hello", "pics", ""⟩),
         ("p2", ⟨"http://i/b.png", "World", "pics", ""⟩)]
      = .error .typeError :=
  ⟨rfl, rfl, rfl⟩

/-! ### Claim C2 -/

/-- C2 — the claim says any feed-fetch failure (transport error or missing
listing envelope) is logged and the run continues to the next feed. The
missing-envelope and `URLError`-with-string-reason paths do return `False`
and continue, but the `HTTPError` handler formats its log message as
`"..." + e.code` with an `int` code, which raises `TypeError`; the
exception propagates out of the collect loop, so the remaining feeds are
never fetched and their posts never persisted. First conjunct: an HTTP
404 on the first of two feeds aborts the run. Second conjunct: for
contrast, a missing `"data"` envelope is handled and the second feed's
posts are still collected. -/
theorem claim2_feed_http_error_aborts_run :
    collectLoop [] [("pics", .httpError 404),
                    ("cats", .success true [⟨"c1", "http://i/c.jpg", "three"⟩])]
      = .error .typeError
    ∧ collectLoop [] [("pics", .success false []),
                      ("cats", .success true [⟨"c1", "http://i/c.jpg", "three"⟩])]
      = .ok [("c1", ⟨"http://i/c.jpg", "three", "cats", ""⟩)] :=
  ⟨rfl, rfl⟩

/-! ### Claim C3 -/

/-- C3 — the feed fetcher consumes listing entries in order and stops at
the first non-image post, returning exactly the image posts seen before
it. First conjunct: in general, the scan of `feed["data"]["children"]`
equals the fold of the longest all-image front segment of the listing
(everything from the first non-image entry on is dropped). Second
conjunct: on a listing with image posts at positions 0, 1, 2, a non-image
post at position 3 and an image post at position 4, exactly the posts at
positions 0, 1, 2 are returned. -/
theorem claim3_fetch_stops_at_first_non_image :
    (∀ (subreddit : String) (acc : PostDict) (l : List Entry),
      scanChildren subreddit acc l
        = (l.takeWhile (fun e => truthy (is_url_image e.url))).foldl
            (fun d e => setKey d e.id ⟨e.url, e.title, subreddit, ""⟩) acc)
    ∧ get_top_posts "pics" (.success true
        [⟨"p0", "http://i/a0.jpg", "t0"⟩, ⟨"p1", "http://i/a1.png", "t1"⟩,
         ⟨"p2", "http://i/a2.jpg", "t2"⟩, ⟨"p3", "http://i/a3.html", "t3"⟩,
         ⟨"p4", "http://i/a4.jpg", "t4"⟩])
      = .posts [("p0", ⟨"http://i/a0.jpg", "t0", "pics", ""⟩),
                ("p1", ⟨"http://i/a1.png", "t1", "pics", ""⟩),
                ("p2", ⟨"http://i/a2.jpg", "t2", "pics", ""⟩)] := by
  constructor
  · intro subreddit acc l
    induction l generalizing acc with
    | nil => simp [scanChildren, List.takeWhile]
    | cons e rest ih =>
      by_cases h : truthy (is_url_image e.url)
      · simp [scanChildren, List.takeWhile_cons, h, ih]
      · simp only [Bool.not_eq_true] at h
        simp [scanChildren, List.takeWhile_cons, h]
  · rfl

/-! ### Claim C4 -/

/-- C4 counterexample — the claim says an id collision between a later and
an earlier feed leaves the earlier entry in place. `POSTS.update(top_posts)`
assigns every key of the per-feed dict, so the later feed's metadata
replaces the earlier entry's value: after collecting two feeds that both
contain post id `"x"`, the collection holds the second feed's metadata for
`"x"`, not the first's. -/
theorem claim4_counterexample_later_feed_overwrites :
    collectLoop [] [("pics", .success true [⟨"x", "http://i/a.jpg", "one"⟩]),
                    ("dogs", .success true [⟨"x", "http://i/b.png", "two"⟩])]
      = .ok [("x", ⟨"http://i/b.png", "two", "dogs", ""⟩)]
    ∧ (⟨"http://i/b.png", "two", "dogs", ""⟩ : Post)
        ≠ ⟨"http://i/a.jpg", "one", "pics", ""⟩ :=
  ⟨rfl, by decide⟩

/-- C4 amended — on an id collision the later feed's entry replaces the
earlier entry's metadata (at the earlier entry's position); what is
preserved is uniqueness of `id`: one entry per id, whose value comes from
the latest feed that supplied it. First conjunct: after a `dict.update`
with a (duplicate-free) per-feed dict, every id of the new dict maps to
the new dict's value. Second conjunct: a `dict.update` never duplicates
keys. -/
theorem claim4_update_replaces_and_keeps_ids_unique
    (d n : PostDict) (k : String) (v : Post) :
    ((n.map Prod.fst).Nodup → dictLookup n k = some v →
      dictLookup (dictUpdate d n) k = some v)
    ∧ ((d.map Prod.fst).Nodup → ((dictUpdate d n).map Prod.fst).Nodup) := by
  constructor
  · intro hnd hl
    induction n generalizing d with
    | nil => simp [dictLookup] at hl
    | cons kv rest ih =>
      obtain ⟨k0, v0⟩ := kv
      simp only [List.map_cons, List.nodup_cons] at hnd
      by_cases hk : k0 = k
      · subst hk
        have hl' : v0 = v := by simpa [dictLookup] using hl
        subst hl'
        rw [show dictUpdate d ((k0, v0) :: rest) = dictUpdate (setKey d k0 v0) rest from rfl,
            dictUpdate_lookup_not_mem _ _ _ hnd.1, dictLookup_setKey_self]
      · simp only [dictLookup, if_neg hk] at hl
        exact ih _ hnd.2 hl
  · intro hd
    exact keys_nodup_dictUpdate _ _ hd

/-- Witness for the amended C4 theorem at a concrete collision. -/
theorem claim4_update_witness :
    dictLookup (dictUpdate [("x", ⟨"http://i/a.jpg", "one", "pics", ""⟩)]
                           [("x", ⟨"http://i/b.png", "two", "dogs", ""⟩)]) "x"
      = some ⟨"http://i/b.png", "two", "dogs", ""⟩
    ∧ ((dictUpdate [("x", ⟨"http://i/a.jpg", "one", "pics", ""⟩)]
                   [("x", ⟨"http://i/b.png", "two", "dogs", ""⟩)]).map Prod.fst).Nodup :=
  ⟨(claim4_update_replaces_and_keeps_ids_unique _ _ "x" _).1 (by simp) rfl,
   (claim4_update_replaces_and_keeps_ids_unique
      [("x", ⟨"http://i/a.jpg", "one", "pics", ""⟩)]
      [("x", ⟨"http://i/b.png", "two", "dogs", ""⟩)] "x"
      ⟨"http://i/b.png", "two", "dogs", ""⟩).2 (by simp)⟩

/-! ### Claim C9 -/

/-- C9 counterexample — the claim says `is_url_image` returns a boolean,
`False` in particular for a URL with no extension. The function body is
`mimetype and mimetype.startswith("image")`, and Python's `and` returns
its first operand when that operand is falsy, so for an undetermined type
the function returns `None`, not the boolean `False`. Additionally, not
every URL ending in `.jpg` yields `True`: for `http://x/.jpg` the
basename's only dot is leading, `splitext` finds no extension, and the
result is again `None`. -/
theorem claim9_counterexample_none_not_false :
    is_url_image "http://example.com/file" = none
    ∧ is_url_image "http://example.com/file" ≠ some false
    ∧ is_url_image "http://x/.jpg" ≠ some true := by
  refine ⟨rfl, by decide, by decide⟩

/-- C9 amended — `is_url_image` returns `True` for every URL whose
`splitext` extension lower-cases to `.jpg` or `.png`, `False` for every
URL whose extension lower-cases to `.html`, and `None` (a falsy value
that is not the boolean `False`) whenever no content type can be guessed
from the URL — in particular for a URL with no extension. -/
theorem claim9_classifier_by_extension (url : String) :
    (strToLower (splitext_ext url) = ".jpg" ∨ strToLower (splitext_ext url) = ".png" →
      is_url_image url = some true)
    ∧ (strToLower (splitext_ext url) = ".html" → is_url_image url = some false)
    ∧ (guess_type url = none → is_url_image url = none) := by
  refine ⟨?_, ?_, ?_⟩
  · rintro (h | h)
    · have hg : guess_type url = some "image/jpeg" := by
        unfold guess_type
        rw [h]
        decide
      unfold is_url_image
      rw [hg]
      decide
    · have hg : guess_type url = some "image/png" := by
        unfold guess_type
        rw [h]
        decide
      unfold is_url_image
      rw [hg]
      decide
  · intro h
    have hg : guess_type url = some "text/html" := by
      unfold guess_type
      rw [h]
      decide
    unfold is_url_image
    rw [hg]
    decide
  · intro h
    unfold is_url_image
    rw [h]

/-! ### String lemmas for the filename claims -/

theorem strAppend_left_cancel {a b c : String} (h : a ++ b = a ++ c) : b = c := by
  apply String.ext
  have hd := congrArg String.data h
  rw [String.data_append, String.data_append] at hd
  exact List.append_cancel_left hd

theorem base_token_inj (d s e t1 t2 : String)
    (h : d ++ "_" ++ s ++ "_" ++ t1 ++ e = d ++ "_" ++ s ++ "_" ++ t2 ++ e) :
    t1 = t2 := by
  have hd := congrArg String.data h
  simp only [String.data_append, List.append_assoc] at hd
  have h1 := List.append_cancel_left hd
  have h2 := List.append_cancel_left h1
  have h3 := List.append_cancel_left h2
  have h4 := List.append_cancel_left h3
  exact String.ext (List.append_cancel_right h4)

theorem data_base_shape (d s t e : String) :
    (d ++ "_" ++ s ++ "_" ++ t ++ e).data
      = d.data ++ '_' :: (s.data ++ '_' :: (t.data ++ e.data)) := by
  simp [String.data_append, List.append_assoc,
        show ("_" : String).data = ['_'] from rfl]

theorem startsWithSlash_base (d s e1 e2 t1 t2 : String) :
    startsWithSlash (d ++ "_" ++ s ++ "_" ++ t1 ++ e1)
      = startsWithSlash (d ++ "_" ++ s ++ "_" ++ t2 ++ e2) := by
  unfold startsWithSlash
  rw [data_base_shape, data_base_shape]
  cases d.data with
  | nil => simp [headIsSlash]
  | cons c cs => simp [headIsSlash]

theorem pathJoin_ne (a b1 b2 : String) (hne : b1 ≠ b2)
    (hsw : startsWithSlash b1 = startsWithSlash b2) :
    pathJoin a b1 ≠ pathJoin a b2 := by
  intro heq
  apply hne
  unfold pathJoin at heq
  cases hb : startsWithSlash b1 with
  | true =>
    have hb2 : startsWithSlash b2 = true := by rw [← hsw]; exact hb
    simpa [hb, hb2] using heq
  | false =>
    have hb2 : startsWithSlash b2 = false := by rw [← hsw]; exact hb
    simp only [hb, hb2, Bool.false_eq_true, if_false] at heq
    split at heq
    · exact strAppend_left_cancel heq
    · exact strAppend_left_cancel (a := a ++ "/") heq

/-! ### Claim C6 -/

/-- C6 — when the derived target filename already exists on disk, the
persist-phase iteration for that post performs zero network downloads:
the `is_duplicate_file` check runs before `download_image`, and the step
only appends a duplicate-file log entry (the downloads list, the disk,
the collection and the writes are untouched). -/
theorem claim6_existing_file_skips_before_download
    (env : Env) (st : PState) (k : String) (md : Post)
    (hlook : dictLookup st.posts k = some md)
    (hdup : is_duplicate_file st.disk
      (make_filename env.date (env.tok k) md.url md.title md.subreddit env.out_dir) = true) :
    persistStep env st k
      = .ok { st with log := st.log ++
          [.dupFile (make_filename env.date (env.tok k) md.url md.title md.subreddit env.out_dir)] } := by
  unfold persistStep
  rw [hlook]
  simp [hdup]

/-- Witness for C6: a concrete post whose filename is already on disk is
skipped with a duplicate-file log entry and no download. -/
theorem claim6_witness :
    persistStep
      ⟨"111025", fun _ => "tok", "/out", fun _ => .bytes [1, 2, 3], fun _ => true, sha1Stub⟩
      ⟨[("p1", ⟨"http://i/a.jpg", "Hello", "pics", ""⟩)],
       ["/out/111025_pics_Hello.jpg"], [], [], []⟩ "p1"
      = .ok { (⟨[("p1", ⟨"http://i/a.jpg", "Hello", "pics", ""⟩)],
               ["/out/111025_pics_Hello.jpg"], [], [], []⟩ : PState) with
              log := ([] : List LogEvent) ++
                [.dupFile (make_filename "111025"
                  ((fun _ => "tok") "p1") "http://i/a.jpg" "Hello" "pics" "/out")] } :=
  claim6_existing_file_skips_before_download _ _ "p1" ⟨"http://i/a.jpg", "Hello", "pics", ""⟩
    rfl (by decide)

/-! ### Claim C7 -/

/-- C7 — for every title (empty, punctuation-only, emoji-only included)
the file-name component composed by `make_filename` is non-empty, and when
sanitization yields the empty string the random token (modelling
`uuid.uuid4().hex`, a 32-character hexadecimal string) is substituted for
the title part. The first conjunct records that the returned path is the
output directory joined with that non-empty component. -/
theorem claim7_filename_component_nonempty
    (date token url name subreddit out_dir : String) :
    make_filename date token url name subreddit out_dir
      = pathJoin out_dir (make_filename_base date token url name subreddit)
    ∧ make_filename_base date token url name subreddit ≠ ""
    ∧ (sanitizeTitle name = "" →
        make_filename_base date token url name subreddit
          = date ++ "_" ++ subreddit ++ "_" ++ token ++ splitext_ext url) := by
  have he : make_filename_base date token url name subreddit
      = date ++ "_" ++ subreddit ++ "_"
          ++ (if sanitizeTitle name = "" then token else sanitizeTitle name)
          ++ splitext_ext url := rfl
  refine ⟨rfl, ?_, ?_⟩
  · intro h
    rw [he] at h
    have hlen := congrArg String.length h
    simp only [String.length_append,
               show ("_" : String).length = 1 from rfl,
               show ("" : String).length = 0 from rfl] at hlen
    omega
  · intro h
    rw [he, if_pos h]

/-- Witness for C7 at an emoji/punctuation-style title whose sanitization
is empty: the token replaces the title part and the component is
non-empty. -/
theorem claim7_witness :
    make_filename_base "111025" "cafe0123cafe0123cafe0123cafe0123" "http://i/a.jpg" "!!!" "pics"
      = "111025" ++ "_" ++ "pics" ++ "_" ++ "cafe0123cafe0123cafe0123cafe0123"
          ++ splitext_ext "http://i/a.jpg"
    ∧ make_filename_base "111025" "cafe0123cafe0123cafe0123cafe0123" "http://i/a.jpg" "!!!" "pics"
      ≠ "" :=
  ⟨(claim7_filename_component_nonempty "111025" "cafe0123cafe0123cafe0123cafe0123"
      "http://i/a.jpg" "!!!" "pics" "/out").2.2 (by decide),
   (claim7_filename_component_nonempty "111025" "cafe0123cafe0123cafe0123cafe0123"
      "http://i/a.jpg" "!!!" "pics" "/out").2.1⟩

/-! ### Claim C8 -/

/-- C8 — for a fixed date, `make_filename` is deterministic in its
explicit inputs whenever the sanitized title is non-empty (the random
token is not consulted), and in the empty-sanitization fallback two calls
that draw distinct tokens return distinct paths. -/
theorem claim8_deterministic_except_fallback
    (date url name subreddit out_dir t1 t2 : String) :
    (sanitizeTitle name ≠ "" →
      make_filename date t1 url name subreddit out_dir
        = make_filename date t2 url name subreddit out_dir)
    ∧ (sanitizeTitle name = "" → t1 ≠ t2 →
        make_filename date t1 url name subreddit out_dir
          ≠ make_filename date t2 url name subreddit out_dir) := by
  constructor
  · intro h
    unfold make_filename make_filename_base
    simp [h]
  · intro h hne
    have hb1 : make_filename_base date t1 url name subreddit
        = date ++ "_" ++ subreddit ++ "_" ++ t1 ++ splitext_ext url := by
      simp [make_filename_base, h]
    have hb2 : make_filename_base date t2 url name subreddit
        = date ++ "_" ++ subreddit ++ "_" ++ t2 ++ splitext_ext url := by
      simp [make_filename_base, h]
    unfold make_filename
    rw [hb1, hb2]
    exact pathJoin_ne _ _ _
      (fun hq => hne (base_token_inj _ _ _ _ _ hq))
      (startsWithSlash_base _ _ _ _ _ _)

/-- Witness for C8: same non-empty-sanitizing title gives equal paths for
different tokens; an empty-sanitizing title with distinct tokens gives
distinct paths. -/
theorem claim8_witness :
    make_filename "111025" "aaaa" "http://i/a.jpg" "Hello" "pics" "/out"
      = make_filename "111025" "bbbb" "http://i/a.jpg" "Hello" "pics" "/out"
    ∧ make_filename "111025" "aaaa" "http://i/a.jpg" "!!!" "pics" "/out"
      ≠ make_filename "111025" "bbbb" "http://i/a.jpg" "!!!" "pics" "/out" :=
  ⟨(claim8_deterministic_except_fallback "111025" "http://i/a.jpg" "Hello" "pics" "/out"
      "aaaa" "bbbb").1 (by decide),
   (claim8_deterministic_except_fallback "111025" "http://i/a.jpg" "!!!" "pics" "/out"
      "aaaa" "bbbb").2 (by decide) (by decide)⟩

/-! ### Claims C5 and C10: two-post persist runs -/

theorem sha1Stub_ne_empty (data : List Nat) : sha1Stub data ≠ "" := by
  intro h
  have hlen := congrArg String.length h
  rw [show sha1Stub data = "sha1-" ++ String.intercalate "-" (data.map Nat.repr) from rfl,
      String.length_append] at hlen
  simp only [show ("sha1-" : String).length = 5 from rfl,
             show ("" : String).length = 0 from rfl] at hlen
  omega

/-- C5 counterexample — the claim asks for two posts with distinct `id`,
`url` and `title`, identical downloaded bytes and filenames not
pre-existing on disk, and asserts the second is skipped as *duplicate
content* with one duplicate-content log entry. The titles `"a!"` and
`"a?"` are distinct but sanitize to the same `"a"`, so both posts derive
the same filename; the first write puts that filename on disk and the
second post is skipped by the *file-existence* check instead: the run
ends with a single `dupFile` entry and zero `dupContent` entries (and
zero downloads for the second post). -/
theorem claim5_counterexample_colliding_filenames :
    (("a!" : String) ≠ "a?" ∧ ("http://i/one.jpg" : String) ≠ "http://i/two.jpg"
      ∧ ("a1" : String) ≠ "b2")
    ∧ persistPhase
        ⟨"111025", fun _ => "tok", "/out", fun _ => .bytes [1, 2, 3],
         fun _ => true, sha1Stub⟩ []
        [("a1", ⟨"http://i/one.jpg", "a!", "pics", ""⟩),
         ("b2", ⟨"http://i/two.jpg", "a?", "pics", ""⟩)]
      = .ok ⟨[("a1", ⟨"http://i/one.jpg", "a!", "pics", "sha1-1-2-3"⟩),
              ("b2", ⟨"http://i/two.jpg", "a?", "pics", ""⟩)],
             ["/out/111025_pics_a.jpg"], ["http://i/one.jpg"],
             [.dupFile "/out/111025_pics_a.jpg"], ["/out/111025_pics_a.jpg"]⟩ :=
  ⟨⟨by decide, by decide, by decide⟩, rfl⟩

/-- C5 amended — with the additional hypothesis (forced by the
counterexample) that the two derived filenames are distinct: for two
posts with distinct id, url and title, identical downloaded bytes, both
filenames absent from the initial disk and a successful write, the
persist phase writes exactly one file (`writes = [filename₁]`), records
the hash on the first post, and skips the second as duplicate content
with exactly one duplicate-content log entry. -/
theorem claim5_one_write_one_duplicate_content_skip
    (env : Env) (disk0 : List String) (k1 k2 : String) (p1 p2 : Post) (b : List Nat)
    (hk : k1 ≠ k2) (hu : p1.url ≠ p2.url) (ht : p1.title ≠ p2.title)
    (hh1 : p1.hash = "") (hh2 : p2.hash = "")
    (hd1 : env.download p1.url = .bytes b) (hd2 : env.download p2.url = .bytes b)
    (hsha : ∀ x, env.sha1 x ≠ "")
    (hf1 : make_filename env.date (env.tok k1) p1.url p1.title p1.subreddit env.out_dir
      ∉ disk0)
    (hf2 : make_filename env.date (env.tok k2) p2.url p2.title p2.subreddit env.out_dir
      ∉ disk0)
    (hff : make_filename env.date (env.tok k1) p1.url p1.title p1.subreddit env.out_dir
      ≠ make_filename env.date (env.tok k2) p2.url p2.title p2.subreddit env.out_dir)
    (hw : env.write_ok
      (make_filename env.date (env.tok k1) p1.url p1.title p1.subreddit env.out_dir) = true) :
    persistPhase env disk0 [(k1, p1), (k2, p2)]
      = .ok ⟨[(k1, { p1 with hash := env.sha1 b }), (k2, p2)],
             disk0 ++ [make_filename env.date (env.tok k1) p1.url p1.title p1.subreddit env.out_dir],
             [p1.url, p2.url],
             [.dupContent p1.title],
             [make_filename env.date (env.tok k1) p1.url p1.title p1.subreddit env.out_dir]⟩ := by
  have hsb : ¬("" = env.sha1 b) := fun hc => hsha b hc.symm
  simp only [persistPhase, List.map_cons, List.map_nil]
  simp [persistLoop, persistStep, dictLookup, setKey, is_duplicate_file, is_duplicate_hash,
        duplicateHashTitle, download_image, calculate_hash, List.find?,
        hk, hh1, hh2, hd1, hd2, hsb, hff, hw, hf1, hf2]

/-- Witness for the amended C5 theorem on a concrete two-post run. -/
theorem claim5_witness :
    persistPhase
      ⟨"111025", fun _ => "t", "/out", fun _ => .bytes [7], fun _ => true, sha1Stub⟩ []
      [("p1", ⟨"http://i/a.jpg", "one", "pics", ""⟩),
       ("p2", ⟨"http://i/b.jpg", "two", "pics", ""⟩)]
      = .ok ⟨[("p1", ⟨"http://i/a.jpg", "one", "pics", "sha1-7"⟩),
              ("p2", ⟨"http://i/b.jpg", "two", "pics", ""⟩)],
             ["/out/111025_pics_one.jpg"],
             ["http://i/a.jpg", "http://i/b.jpg"],
             [.dupContent "one"],
             ["/out/111025_pics_one.jpg"]⟩ :=
  claim5_one_write_one_duplicate_content_skip
    ⟨"111025", fun _ => "t", "/out", fun _ => .bytes [7], fun _ => true, sha1Stub⟩
    [] "p1" "p2" ⟨"http://i/a.jpg", "one", "pics", ""⟩ ⟨"http://i/b.jpg", "two", "pics", ""⟩
    [7] (by decide) (by decide) (by decide) rfl rfl rfl rfl
    sha1Stub_ne_empty (by simp) (by simp) (by decide) rfl

/-- C10 — when a post's download and hash succeed, its hash is new, and
the disk write then fails (`save_image` returns `False`, which the loop
discards), the failure is swallowed: the loop continues (`Except.ok`),
no file is written (`writes = []`, disk unchanged), but the hash was
already recorded on the post, so a later post with identical bytes is
skipped as duplicate content even though no file exists for those
bytes. -/
theorem claim10_write_failure_swallowed_hash_recorded
    (env : Env) (disk0 : List String) (k1 k2 : String) (p1 p2 : Post) (b : List Nat)
    (hk : k1 ≠ k2)
    (hh1 : p1.hash = "") (hh2 : p2.hash = "")
    (hd1 : env.download p1.url = .bytes b) (hd2 : env.download p2.url = .bytes b)
    (hsha : ∀ x, env.sha1 x ≠ "")
    (hf1 : make_filename env.date (env.tok k1) p1.url p1.title p1.subreddit env.out_dir
      ∉ disk0)
    (hf2 : make_filename env.date (env.tok k2) p2.url p2.title p2.subreddit env.out_dir
      ∉ disk0)
    (hw : env.write_ok
      (make_filename env.date (env.tok k1) p1.url p1.title p1.subreddit env.out_dir) = false) :
    persistPhase env disk0 [(k1, p1), (k2, p2)]
      = .ok ⟨[(k1, { p1 with hash := env.sha1 b }), (k2, p2)],
             disk0,
             [p1.url, p2.url],
             [.writeErr (make_filename env.date (env.tok k1) p1.url p1.title p1.subreddit env.out_dir),
              .dupContent p1.title],
             []⟩ := by
  have hsb : ¬("" = env.sha1 b) := fun hc => hsha b hc.symm
  simp only [persistPhase, List.map_cons, List.map_nil]
  simp [persistLoop, persistStep, dictLookup, setKey, is_duplicate_file, is_duplicate_hash,
        duplicateHashTitle, download_image, calculate_hash, List.find?,
        hk, hh1, hh2, hd1, hd2, hsb, hw, hf1, hf2]

/-- Witness for C10 on a concrete two-post run with a failing write. -/
theorem claim10_witness :
    persistPhase
      ⟨"111025", fun _ => "t", "/out", fun _ => .bytes [7], fun _ => false, sha1Stub⟩ []
      [("p1", ⟨"http://i/a.jpg", "one", "pics", ""⟩),
       ("p2", ⟨"http://i/b.jpg", "two", "pics", ""⟩)]
      = .ok ⟨[("p1", ⟨"http://i/a.jpg", "one", "pics", "sha1-7"⟩),
              ("p2", ⟨"http://i/b.jpg", "two", "pics", ""⟩)],
             [],
             ["http://i/a.jpg", "http://i/b.jpg"],
             [.writeErr "/out/111025_pics_one.jpg", .dupContent "one"],
             []⟩ :=
  claim10_write_failure_swallowed_hash_recorded
    ⟨"111025", fun _ => "t", "/out", fun _ => .bytes [7], fun _ => false, sha1Stub⟩
    [] "p1" "p2" ⟨"http://i/a.jpg", "one", "pics", ""⟩ ⟨"http://i/b.jpg", "two", "pics", ""⟩
    [7] (by decide) rfl rfl rfl rfl
    sha1Stub_ne_empty (by simp) (by simp) rfl

/-- Witness for the amended C9 theorem at concrete URLs. -/
theorem claim9_classifier_witness :
    is_url_image "http://i/photo.JPG" = some true
    ∧ is_url_image "http://i/page.html" = some false
    ∧ is_url_image "http://example.com/file" = none :=
  ⟨(claim9_classifier_by_extension "http://i/photo.JPG").1 (Or.inl (by decide)),
   (claim9_classifier_by_extension "http://i/page.html").2.1 (by decide),
   (claim9_classifier_by_extension "http://example.com/file").2.2 (by decide)⟩

end DlRedditTop


